import Mathlib

/-!
Verification of the signal-normalization and composite-aggregation engine of
the geopolitical-risk dashboard (src/main.py).

Shallow embedding conventions:
* Python floats are modelled as exact rationals (ℚ) wherever the source uses
  only field arithmetic, comparisons, `max`/`min` and decimal rounding; the
  sigmoid normalizer (`math.exp`) is modelled over the reals (ℝ).
* Python `round(x, n)` is modelled as `(round (10^n * x)) / 10^n` with
  Mathlib's `round` (ties away from the half point go half-up); Python's
  float rounding differs only on exact binary ties, which no claim touches.
* Python dicts keyed by question / region / signal name are modelled as
  lookup functions into `Option`, or as association lists where iteration
  order matters.
* Network / database retrieval, logging, sleeping, and display-only fields
  (sparklines, colours, slugs, 24h-ago deltas, free-text detail strings)
  are outside the embedded fragment; the pure computation that the claims
  are about is embedded faithfully.
-/

namespace GeoRisk

/-- Decimal rounding to 1 place, as in Python `round(x, 1)` (ℚ model). -/
def round1 (x : ℚ) : ℚ := (round (10 * x) : ℚ) / 10

/-- Decimal rounding to 3 places, as in Python `round(x, 3)` (ℚ model). -/
def round3 (x : ℚ) : ℚ := (round (1000 * x) : ℚ) / 1000

/-- Decimal rounding to 4 places, as in Python `round(x, 4)` (ℚ model). -/
def round4 (x : ℚ) : ℚ := (round (10000 * x) : ℚ) / 10000

/-- Arithmetic mean of a list of rationals (`np.mean`); the source never
applies it to an empty list (guarded by truthiness checks). -/
def listMean (l : List ℚ) : ℚ := l.sum / l.length

-- ============================================================
-- CONFIG CONSTANTS (src/main.py lines 82-85)
-- ============================================================

def GLOBAL_REGIONAL_WEIGHT : ℚ := 0.85

def GLOBAL_PM_WEIGHT : ℚ := 0.15

def PM_MATURITY_THRESHOLD : ℕ := 50

def PM_STD_FLOOR : ℚ := 0.01

-- ============================================================
-- CONVERGENCE CLASSIFIER (src/main.py, get_convergence_status)
-- ============================================================

/-- The signals actually considered: entries whose value is not `None`
(`active = {k: v for k, v in scores.items() if v is not None}`). -/
def activeSignals (scores : List (String × Option ℚ)) : List (String × ℚ) :=
  scores.filterMap (fun p => p.2.map (fun v => (p.1, v)))

/-- Number of active signals with value ≥ 58 (`elev`). -/
def elevCount (scores : List (String × Option ℚ)) : ℕ :=
  ((activeSignals scores).filter (fun p => 58 ≤ p.2)).length

/-- Number of active signals with value ≤ 42 (`depr`). -/
def deprCount (scores : List (String × Option ℚ)) : ℕ :=
  ((activeSignals scores).filter (fun p => p.2 ≤ 42)).length

/-- `get_convergence_status` (src/main.py lines 473-502), projected to the
label component of the returned (label, detail, colour) triple; the detail
and colour are display-only and carry no further logic. -/
def get_convergence_status (scores : List (String × Option ℚ)) : String :=
  if activeSignals scores = [] then "No Data"
  else
    let ne := elevCount scores
    let nd := deprCount scores
    if ne = 0 ∧ nd = 0 then "Quiet"
    else if 3 ≤ ne then "Broad Escalation"
    else if 3 ≤ nd then "Broad De-escalation"
    else if 2 ≤ ne ∧ nd = 0 then "Confirming"
    else if 2 ≤ nd ∧ ne = 0 then "Calming"
    else if 1 ≤ ne ∧ 1 ≤ nd then "Mixed Signals"
    else if ne = 1 then "Early Signal"
    else if nd = 1 then "Early Calm"
    else "Quiet"

-- ============================================================
-- NORMALIZER (src/main.py, z_to_centred_score, lines 413-419)
-- ============================================================

/-- Decimal rounding to 1 place over the reals, Python `round(x, 1)`. -/
noncomputable def roundR1 (x : ℝ) : ℝ := (round (10 * x) : ℝ) / 10

/-- `z_to_centred_score` (src/main.py lines 413-419):
`round(max(0.1, min(99.9, 100 / (1 + math.exp(-0.65 * z)))), 1)`. -/
noncomputable def z_to_centred_score (z : ℝ) : ℝ :=
  roundR1 (max 0.1 (min 99.9 (100 / (1 + Real.exp (-0.65 * z)))))

/-- Modelled from the spec: numpy-style `clip(x, lo, hi)`. -/
def clip (x lo hi : ℝ) : ℝ := max lo (min x hi)

/-- Modelled from the spec: the reference Normalizer
`round(clip(100 / (1 + e^(−k·z)), 0.1, 99.9), 1)` with `k = 0.65`,
to be compared with the source's `z_to_centred_score`. -/
noncomputable def normalizer_spec (z : ℝ) : ℝ :=
  roundR1 (clip (100 / (1 + Real.exp (-0.65 * z))) 0.1 99.9)

-- ============================================================
-- BASELINE TRACKER (src/main.py, fetch_contract_baselines, lines 724-772)
-- ============================================================

/-- A per-question baseline entry as built by `fetch_contract_baselines`
(display-only fields `slug`, `sparkline`, `price_24h_ago` omitted). -/
structure Baseline where
  mean : ℚ
  std : ℚ
  count : ℕ
  mature : Bool
deriving DecidableEq

/-- Population standard deviation of a price history (`np.std`), over ℝ. -/
noncomputable def stdR (l : List ℚ) : ℝ :=
  Real.sqrt (((l.map (fun x => ((x : ℝ) - (listMean l : ℝ)) ^ 2)).sum) / l.length)

/-- Decimal rounding of a real to 4 places, landing in ℚ. -/
noncomputable def round4R (x : ℝ) : ℚ := (round (10000 * x) : ℚ) / 10000

/-- The per-question entry built in the loop of `fetch_contract_baselines`
(lines 746-767): mean/std of the full retained 7-day history, rounded to 4
places; `count = n`; `mature` is `False` when `n < PM_MATURITY_THRESHOLD`
and `True` otherwise. -/
noncomputable def mkBaselineEntry (prices : List ℚ) : Baseline :=
  { mean := round4 (listMean prices)
    std := round4R (stdR prices)
    count := prices.length
    mature := if prices.length < PM_MATURITY_THRESHOLD then false else true }

/-- `fetch_contract_baselines` (lines 724-772), modelled from the point where
the 7-day history rows have been grouped by question (`by_question`): the
returned dict maps each question to its baseline entry. -/
noncomputable def fetch_contract_baselines (byQuestion : List (String × List ℚ)) :
    String → Option Baseline :=
  fun q => (byQuestion.find? (fun p => p.1 == q)).map (fun p => mkBaselineEntry p.2)

-- ============================================================
-- SIGNAL AGGREGATOR (src/main.py, calculate_polymarket_score_normalised,
-- lines 775-802)
-- ============================================================

/-- A geo-classified prediction-market contract (display-only fields
`probability_pct`, `risk_pct`, `slug`, `region` omitted). -/
structure Contract where
  question : String
  yes_price : ℚ
  risk_price : ℚ
  volume : ℚ
  is_deescalation : Bool
deriving DecidableEq

/-- The stored per-item z-score (line 784-785):
`z = (risk_price - mean) / max(std, PM_STD_FLOOR) if std > 0.001 else 0.0`,
then `round(z, 3)`. -/
def item_z (rp mean std : ℚ) : ℚ :=
  if 1 / 1000 < std then round3 ((rp - mean) / max std PM_STD_FLOOR) else 0

/-- Modelled from the spec: the per-item z-score formula
`z = (currentValue − baseline.mean) / std_eff` with
`std_eff = max(std, STD_FLOOR)` and `STD_FLOOR = 0.01`, to be compared with
the source's `item_z`. -/
def spec_item_z (rp mean std : ℚ) : ℚ := (rp - mean) / max std (1 / 100)

/-- A mature entry of the `mature` list built at line 785. -/
structure MatureItem where
  contract : Contract
  z : ℚ
  baseline : Baseline
deriving DecidableEq

/-- The partition loop of lines 778-785: items whose baseline is missing or
immature go to the `immature_slugs` list (as `q[:40]`); the rest enter the
`mature` list with their stored z-score and baseline. -/
def scoreItems : List Contract → (String → Option Baseline) →
    List MatureItem × List String
  | [], _ => ([], [])
  | c :: rest, bls =>
    match bls c.question with
    | none =>
      ((scoreItems rest bls).1, c.question.take 40 :: (scoreItems rest bls).2)
    | some bl =>
      if bl.mature then
        (⟨c, item_z c.risk_price bl.mean bl.std, bl⟩ :: (scoreItems rest bls).1,
         (scoreItems rest bls).2)
      else ((scoreItems rest bls).1, c.question.take 40 :: (scoreItems rest bls).2)

/-- The scoring statistics returned alongside the score (display-only fields
`highest_prob`, `method`, `contract_zscores` omitted). -/
structure PMStats where
  num_contracts : ℕ
  total_volume : ℚ
  avg_risk_pct : ℚ
  threat_count : ℕ
  deesc_count : ℕ
  mature_count : ℕ
  immature_count : ℕ
  agg_z : ℚ
deriving DecidableEq

/-- The aggregate z of line 793: volume-weighted mean of the stored item
z-scores when total mature volume is positive, else `np.mean` of them. -/
def aggZ (mat : List MatureItem) : ℚ :=
  let total_vol := (mat.map (fun m => m.contract.volume)).sum
  if 0 < total_vol then (mat.map (fun m => m.z * m.contract.volume)).sum / total_vol
  else listMean (mat.map (fun m => m.z))

/-- The weighted average risk price of line 795. -/
def avgRiskPrice (mat : List MatureItem) : ℚ :=
  let total_vol := (mat.map (fun m => m.contract.volume)).sum
  if 0 < total_vol then
    (mat.map (fun m => m.contract.risk_price * m.contract.volume)).sum / total_vol
  else listMean (mat.map (fun m => m.contract.risk_price))

/-- `calculate_polymarket_score_normalised` (lines 775-802): returns the
normalized score and the stats record. -/
noncomputable def calculate_polymarket_score_normalised
    (contracts : List Contract) (baselines : String → Option Baseline) :
    ℝ × PMStats :=
  if contracts = [] then (50.0, ⟨0, 0, 50.0, 0, 0, 0, 0, 0⟩)
  else
    let mat := (scoreItems contracts baselines).1
    let imm := (scoreItems contracts baselines).2
    let tc := (contracts.filter (fun m => !m.is_deescalation)).length
    let dc := (contracts.filter (fun m => m.is_deescalation)).length
    let tv := (contracts.map (fun m => m.volume)).sum
    if mat = [] then
      (50.0, ⟨contracts.length, tv, 50.0, tc, dc, 0, contracts.length, 0⟩)
    else
      let az := aggZ mat
      (roundR1 (z_to_centred_score (az : ℝ)),
       ⟨contracts.length, tv, round1 (avgRiskPrice mat * 100), tc, dc,
        mat.length, imm.length, round3 az⟩)

-- ============================================================
-- COMPOSITE ENGINE (src/main.py lines 1244-1298)
-- ============================================================

/-- The `weighted` list of `calculate_regional_composite` (lines 1248-1254):
present signals paired with their fixed weights
(polymarket 0.375, markets 0.375, gt_panic 0.25). -/
def weightedSignals (pm mkt gtp : Option ℚ) : List (ℚ × ℚ) :=
  (match pm with | some s => [(s, 0.375)] | none => []) ++
  (match mkt with | some s => [(s, 0.375)] | none => []) ++
  (match gtp with | some s => [(s, 0.25)] | none => [])

/-- `total_w` of line 1257. -/
def totalWeight (pm mkt gtp : Option ℚ) : ℚ :=
  ((weightedSignals pm mkt gtp).map (fun p => p.2)).sum

/-- `calculate_regional_composite` (lines 1244-1258). The last three
parameters are accepted and ignored, as in the source. -/
def calculate_regional_composite (pm mkt gtp gdelt gtg cf : Option ℚ) : ℚ :=
  let weighted := weightedSignals pm mkt gtp
  if weighted = [] then 50.0
  else round1 ((weighted.map (fun p => p.1 * p.2 / totalWeight pm mkt gtp)).sum)

/-- The fixed region enumeration (src/main.py `REGIONS`, lines 92-140). -/
inductive Region where
  | europe
  | middle_east
  | asia_pacific
deriving DecidableEq

/-- The per-region record built by `calculate_regional_composites`
(display passthrough fields `colour`, `convergence_detail`,
`convergence_colour`, `pm_stats`, `mkt_tickers`, `gdelt_stats`,
`gtrends_stats`, `cloudflare_stats` omitted). -/
structure RegionOut where
  composite : ℚ
  signals : List (String × ℚ)
  convergence_label : String
deriving DecidableEq

/-- The `scored_sigs` dict of lines 1272-1275, fed to the convergence
classifier: absent gt_panic is replaced by the sentinel 50.0, so all three
entries are present. -/
def scored_signals (ps ms : ℚ) (gtp : Option ℚ) : List (String × Option ℚ) :=
  [("polymarket", some ps), ("markets", some ms), ("gt_panic", some (gtp.getD 50.0))]

/-- `calculate_regional_composites` (lines 1260-1285). Regional dicts are
modelled as partial maps `Region → Option score`; a region missing from the
polymarket/markets maps yields the sentinel 50.0 (`.get(rk, {}).get("score",
50.0)`), while gdelt/gtrends/cloudflare absences stay `None` until the
published `signals` map substitutes 50.0. -/
def calculate_regional_composites (pm_reg mkt_reg : Region → Option ℚ)
    (gdelt_reg : Region → Option ℚ)
    (gtrends_reg : Region → Option (Option ℚ × Option ℚ))
    (cloudflare_reg : Region → Option ℚ) : Region → RegionOut :=
  fun rk =>
    let ps := (pm_reg rk).getD 50.0
    let ms := (mkt_reg rk).getD 50.0
    let gs := gdelt_reg rk
    let gtp := (gtrends_reg rk).bind (fun d => d.1)
    let gtg := (gtrends_reg rk).bind (fun d => d.2)
    let cfs := cloudflare_reg rk
    { composite := calculate_regional_composite (some ps) (some ms) gtp gs gtg cfs
      signals := [("polymarket", ps), ("markets", ms),
                  ("gt_panic", gtp.getD 50.0), ("gdelt", gs.getD 50.0),
                  ("gt_global", gtg.getD 50.0), ("cloudflare", cfs.getD 50.0)]
      convergence_label := get_convergence_status (scored_signals ps ms gtp) }

/-- The dynamic amplification factor of line 1293:
`1 + (s-58)*0.02` when `s > 58`, `1 + (42-s)*0.01` when `s < 42`, else 1. -/
def amp_factor (s : ℚ) : ℚ :=
  if 58 < s then 1 + (s - 58) * 0.02
  else if s < 42 then 1 + (42 - s) * 0.01
  else 1

/-- The base weight `bw = 1.0 / len(regional_composites)` of line 1290. -/
def baseWeight (rcs : List (String × ℚ)) : ℚ := 1 / rcs.length

/-- A region's un-normalized weight `wts[rk] = bw * amp` of line 1294. -/
def ampWeight (rcs : List (String × ℚ)) (s : ℚ) : ℚ :=
  baseWeight rcs * amp_factor s

/-- `tw`, the sum of un-normalized weights (line 1294). -/
def totalAmpWeight (rcs : List (String × ℚ)) : ℚ :=
  (rcs.map (fun p => ampWeight rcs p.2)).sum

/-- `rs`, the cross-region aggregate of line 1296: composites blended with
renormalized weights `wts[r] / tw`. -/
def crossRegionAggregate (rcs : List (String × ℚ)) : ℚ :=
  (rcs.map (fun p => p.2 * (ampWeight rcs p.2 / totalAmpWeight rcs))).sum

/-- `calculate_dynamic_global_score` (lines 1287-1298); the regional
composites dict is modelled as an association list of (region key,
composite score). -/
def calculate_dynamic_global_score (rcs : List (String × ℚ))
    (global_pm_score : Option ℚ) : ℚ × List (String × ℚ) :=
  let gpm := global_pm_score.getD 50.0
  if rcs = [] then (round1 gpm, [])
  else if totalAmpWeight rcs = 0 then (50.0, [])
  else
    let gs := crossRegionAggregate rcs * GLOBAL_REGIONAL_WEIGHT + gpm * GLOBAL_PM_WEIGHT
    (round1 (max 0 (min 100 gs)),
     rcs.map (fun p => (p.1, round3 (ampWeight rcs p.2 / totalAmpWeight rcs))))

-- ============================================================
-- REFRESH SCHEDULER — GTRENDS ACCEPTANCE (src/main.py,
-- _gtrends_background_loop, lines 1118-1133)
-- ============================================================

/-- The per-region term-count summary of a fetched Google Trends payload
(`l1_count`, `l2_count` of the result dict; score fields omitted — only the
counts drive the acceptance decision). -/
structure GtRegionEntry where
  l1_count : ℕ
  l2_count : ℕ
deriving DecidableEq

/-- The shared `_gtrends_state` slice touched by the loop body: the accepted
regional payload and its `last_updated` timestamp (the single-flight
`fetching` flag guards concurrency and carries no data). -/
structure GtState where
  regional : List (String × GtRegionEntry)
  last_updated : ℚ
deriving DecidableEq

/-- Total successfully-retrieved term count of a payload:
`sum(v.get("l1_count", 0) + v.get("l2_count", 0) for v in data.values())`. -/
def payloadTermCount (p : List (String × GtRegionEntry)) : ℕ :=
  (p.map (fun e => e.2.l1_count + e.2.l2_count)).sum

/-- One successful iteration of `_gtrends_background_loop` (lines 1123-1130)
after `fetch_gtrends_regional` returned `data` at time `now`: an empty fetch
changes nothing; otherwise the payload is accepted (replacing the regional
data and advancing `last_updated`) exactly when
`new_terms >= old_terms * 0.5 or old_terms == 0`, else discarded. -/
def gtrends_background_step (st : GtState) (data : List (String × GtRegionEntry))
    (now : ℚ) : GtState :=
  if data = [] then st
  else
    let newTerms := payloadTermCount data
    let oldTerms := payloadTermCount st.regional
    if (oldTerms : ℚ) * 0.5 ≤ (newTerms : ℚ) ∨ oldTerms = 0 then ⟨data, now⟩
    else st

-- ============================================================
-- HELPER LEMMAS
-- ============================================================

lemma elevCount_of_empty {scores : List (String × Option ℚ)}
    (h : activeSignals scores = []) : elevCount scores = 0 := by
  simp [elevCount, h]

lemma deprCount_of_empty {scores : List (String × Option ℚ)}
    (h : activeSignals scores = []) : deprCount scores = 0 := by
  simp [deprCount, h]

lemma sum_map_const {α : Type} (l : List α) (c : ℚ) :
    (l.map (fun _ => c)).sum = l.length * c := by
  induction l with
  | nil => simp
  | cons a t ih => simp [ih]; ring

lemma sum_map_div {α : Type} (l : List α) (f : α → ℚ) (T : ℚ) :
    (l.map (fun a => f a / T)).sum = (l.map f).sum / T := by
  induction l with
  | nil => simp
  | cons a t ih => simp [ih, div_add_div_same]

-- ============================================================
-- CLAIM THEOREMS
-- ============================================================

/-- C8: `get_convergence_status` buckets each present signal as elevated
(≥ 58) or depressed (≤ 42) and returns labels by the claimed decision table
in the claimed precedence order; the four quoted example maps evaluate to
"Confirming", "Mixed Signals", "Quiet" and "No Data". -/
theorem convergence_decision_table :
    (∀ scores, activeSignals scores = [] →
      get_convergence_status scores = "No Data") ∧
    (∀ scores, activeSignals scores ≠ [] → elevCount scores = 0 →
      deprCount scores = 0 → get_convergence_status scores = "Quiet") ∧
    (∀ scores, 3 ≤ elevCount scores →
      get_convergence_status scores = "Broad Escalation") ∧
    (∀ scores, 3 ≤ deprCount scores → elevCount scores < 3 →
      get_convergence_status scores = "Broad De-escalation") ∧
    (∀ scores, 2 ≤ elevCount scores → deprCount scores = 0 →
      elevCount scores < 3 → get_convergence_status scores = "Confirming") ∧
    (∀ scores, 2 ≤ deprCount scores → elevCount scores = 0 →
      deprCount scores < 3 → get_convergence_status scores = "Calming") ∧
    (∀ scores, 1 ≤ elevCount scores → 1 ≤ deprCount scores →
      elevCount scores < 3 → deprCount scores < 3 →
      get_convergence_status scores = "Mixed Signals") ∧
    (∀ scores, elevCount scores = 1 → deprCount scores = 0 →
      get_convergence_status scores = "Early Signal") ∧
    (∀ scores, deprCount scores = 1 → elevCount scores = 0 →
      get_convergence_status scores = "Early Calm") ∧
    get_convergence_status [("A", some 80), ("B", some 75), ("C", some 50)] = "Confirming" ∧
    get_convergence_status [("A", some 80), ("B", some 20), ("C", some 50)] = "Mixed Signals" ∧
    get_convergence_status [("A", some 50), ("B", some 50), ("C", some 50)] = "Quiet" ∧
    get_convergence_status ([] : List (String × Option ℚ)) = "No Data" := by
  refine ⟨?_, ?_, ?_, ?_, ?_, ?_, ?_, ?_, ?_, by decide, by decide, by decide, by decide⟩
  all_goals intro scores
  · intro h; rw [get_convergence_status, if_pos h]
  · intro hne h1 h2
    rw [get_convergence_status, if_neg hne, if_pos ⟨h1, h2⟩]
  · intro h
    have hne : ¬ activeSignals scores = [] := fun he =>
      by have := elevCount_of_empty he; omega
    rw [get_convergence_status, if_neg hne,
      if_neg (by omega : ¬ (elevCount scores = 0 ∧ deprCount scores = 0)),
      if_pos h]
  · intro h hlt
    have hne : ¬ activeSignals scores = [] := fun he =>
      by have := deprCount_of_empty he; omega
    rw [get_convergence_status, if_neg hne,
      if_neg (by omega : ¬ (elevCount scores = 0 ∧ deprCount scores = 0)),
      if_neg (by omega : ¬ 3 ≤ elevCount scores), if_pos h]
  · intro h h0 hlt
    have hne : ¬ activeSignals scores = [] := fun he =>
      by have := elevCount_of_empty he; omega
    rw [get_convergence_status, if_neg hne,
      if_neg (by omega : ¬ (elevCount scores = 0 ∧ deprCount scores = 0)),
      if_neg (by omega : ¬ 3 ≤ elevCount scores),
      if_neg (by omega : ¬ 3 ≤ deprCount scores), if_pos ⟨h, h0⟩]
  · intro h h0 hlt
    have hne : ¬ activeSignals scores = [] := fun he =>
      by have := deprCount_of_empty he; omega
    rw [get_convergence_status, if_neg hne,
      if_neg (by omega : ¬ (elevCount scores = 0 ∧ deprCount scores = 0)),
      if_neg (by omega : ¬ 3 ≤ elevCount scores),
      if_neg (by omega : ¬ 3 ≤ deprCount scores),
      if_neg (by omega : ¬ (2 ≤ elevCount scores ∧ deprCount scores = 0)),
      if_pos ⟨h, h0⟩]
  · intro h1 h2 hl1 hl2
    have hne : ¬ activeSignals scores = [] := fun he =>
      by have := elevCount_of_empty he; omega
    rw [get_convergence_status, if_neg hne,
      if_neg (by omega : ¬ (elevCount scores = 0 ∧ deprCount scores = 0)),
      if_neg (by omega : ¬ 3 ≤ elevCount scores),
      if_neg (by omega : ¬ 3 ≤ deprCount scores),
      if_neg (by omega : ¬ (2 ≤ elevCount scores ∧ deprCount scores = 0)),
      if_neg (by omega : ¬ (2 ≤ deprCount scores ∧ elevCount scores = 0)),
      if_pos ⟨h1, h2⟩]
  · intro h1 h2
    have hne : ¬ activeSignals scores = [] := fun he =>
      by have := elevCount_of_empty he; omega
    rw [get_convergence_status, if_neg hne,
      if_neg (by omega : ¬ (elevCount scores = 0 ∧ deprCount scores = 0)),
      if_neg (by omega : ¬ 3 ≤ elevCount scores),
      if_neg (by omega : ¬ 3 ≤ deprCount scores),
      if_neg (by omega : ¬ (2 ≤ elevCount scores ∧ deprCount scores = 0)),
      if_neg (by omega : ¬ (2 ≤ deprCount scores ∧ elevCount scores = 0)),
      if_neg (by omega : ¬ (1 ≤ elevCount scores ∧ 1 ≤ deprCount scores)),
      if_pos h1]
  · intro h1 h2
    have hne : ¬ activeSignals scores = [] := fun he =>
      by have := deprCount_of_empty he; omega
    rw [get_convergence_status, if_neg hne,
      if_neg (by omega : ¬ (elevCount scores = 0 ∧ deprCount scores = 0)),
      if_neg (by omega : ¬ 3 ≤ elevCount scores),
      if_neg (by omega : ¬ 3 ≤ deprCount scores),
      if_neg (by omega : ¬ (2 ≤ elevCount scores ∧ deprCount scores = 0)),
      if_neg (by omega : ¬ (2 ≤ deprCount scores ∧ elevCount scores = 0)),
      if_neg (by omega : ¬ (1 ≤ elevCount scores ∧ 1 ≤ deprCount scores)),
      if_neg (by omega : ¬ elevCount scores = 1), if_pos h1]

/-- Witness for C8: a map with three elevated signals is classified
"Broad Escalation" by the decision-table theorem. -/
theorem convergence_decision_table_witness :
    get_convergence_status [("A", some 80), ("B", some 75), ("C", some 60)] =
      "Broad Escalation" :=
  convergence_decision_table.2.2.1 _ (by decide)

/-- C9: a nonempty newly fetched Google Trends payload is accepted
(replacing the regional data and advancing `last_updated`) exactly when its
term count is at least half the previously accepted payload's count or there
was no previous payload; otherwise the state is returned unchanged. -/
theorem gtrends_acceptance (st : GtState)
    (data : List (String × GtRegionEntry)) (now : ℚ) (hne : data ≠ []) :
    ((payloadTermCount st.regional ≤ 2 * payloadTermCount data ∨
        payloadTermCount st.regional = 0) →
      gtrends_background_step st data now = ⟨data, now⟩) ∧
    (payloadTermCount st.regional ≠ 0 ∧
        2 * payloadTermCount data < payloadTermCount st.regional →
      gtrends_background_step st data now = st) := by
  constructor
  · intro h
    rw [gtrends_background_step, if_neg hne, if_pos ?_]
    rcases h with h | h
    · left
      have hq : (payloadTermCount st.regional : ℚ) ≤ 2 * (payloadTermCount data : ℚ) := by
        exact_mod_cast h
      linarith
    · right; exact h
  · rintro ⟨h0, hlt⟩
    rw [gtrends_background_step, if_neg hne, if_neg ?_]
    push_neg
    constructor
    · have hq : 2 * (payloadTermCount data : ℚ) < (payloadTermCount st.regional : ℚ) := by
        exact_mod_cast hlt
      linarith
    · exact h0

/-- Witness for C9: a previous payload of 20 terms followed by a fetch of 8
terms (8 < 10) is rejected, leaving the published payload and its timestamp
unchanged. -/
theorem gtrends_acceptance_witness :
    gtrends_background_step ⟨[("europe", ⟨10, 10⟩)], 1⟩ [("europe", ⟨4, 4⟩)] 2 =
      ⟨[("europe", ⟨10, 10⟩)], 1⟩ :=
  (gtrends_acceptance ⟨[("europe", ⟨10, 10⟩)], 1⟩ [("europe", ⟨4, 4⟩)] 2
    (by decide)).2 (by decide)

/-- C2: in `calculate_regional_composite`, missing scored signals are dropped
(the weighted list is empty exactly when all three are missing), the applied
weights of the present signals are renormalized to sum to exactly 1, and the
all-missing composite is exactly 50.0. -/
theorem composite_weight_renormalization (pm mkt gtp g1 g2 g3 : Option ℚ) :
    (weightedSignals pm mkt gtp = [] ↔ pm = none ∧ mkt = none ∧ gtp = none) ∧
    (pm = none → mkt = none → gtp = none →
      calculate_regional_composite pm mkt gtp g1 g2 g3 = 50.0) ∧
    (weightedSignals pm mkt gtp ≠ [] →
      ((weightedSignals pm mkt gtp).map
        (fun p => p.2 / totalWeight pm mkt gtp)).sum = 1) := by
  rcases pm with _ | a <;> rcases mkt with _ | b <;> rcases gtp with _ | c <;>
    simp [calculate_regional_composite, weightedSignals, totalWeight] <;> norm_num

/-- Witness for C2: with polymarket 80 present, markets missing and gt_panic
60 present, the two applied weights sum to 1; with all three signals missing
the composite is 50.0. -/
theorem composite_weight_renormalization_witness :
    ((weightedSignals (some 80) none (some 60)).map
      (fun p => p.2 / totalWeight (some 80) none (some 60))).sum = 1 ∧
    calculate_regional_composite none none none none none none = 50.0 :=
  ⟨(composite_weight_renormalization (some 80) none (some 60) none none none).2.2
      (by decide),
   (composite_weight_renormalization none none none none none none).2.1
      rfl rfl rfl⟩

/-- C10: in `calculate_regional_composites`, a region absent from the
polymarket map enters the blend as the sentinel 50.0 at its full fixed
weight (the composite closed form keeps both 0.375 weights and renormalizes
only when gt_panic is absent), the convergence-classifier input always
contains exactly three present entries with absent gt_panic replaced by
50.0, and the published signals map substitutes 50.0 for every absent
gt_panic, gdelt, gt_global and cloudflare score. -/
theorem regional_sentinel_substitution (pm mkt gd : Region → Option ℚ)
    (gtr : Region → Option (Option ℚ × Option ℚ)) (cf : Region → Option ℚ)
    (rk : Region) :
    ((gtr rk).bind (fun d => d.1) = none →
      (calculate_regional_composites pm mkt gd gtr cf rk).composite =
        round1 ((0.375 * ((pm rk).getD 50.0) + 0.375 * ((mkt rk).getD 50.0)) / 0.75)) ∧
    (∀ p, (gtr rk).bind (fun d => d.1) = some p →
      (calculate_regional_composites pm mkt gd gtr cf rk).composite =
        round1 (0.375 * ((pm rk).getD 50.0) + 0.375 * ((mkt rk).getD 50.0) + 0.25 * p)) ∧
    (pm rk = none → (pm rk).getD 50.0 = 50.0) ∧
    (scored_signals ((pm rk).getD 50.0) ((mkt rk).getD 50.0)
      ((gtr rk).bind (fun d => d.1))).length = 3 ∧
    (∀ q ∈ scored_signals ((pm rk).getD 50.0) ((mkt rk).getD 50.0)
      ((gtr rk).bind (fun d => d.1)), q.2.isSome = true) ∧
    (calculate_regional_composites pm mkt gd gtr cf rk).convergence_label =
      get_convergence_status (scored_signals ((pm rk).getD 50.0)
        ((mkt rk).getD 50.0) ((gtr rk).bind (fun d => d.1))) ∧
    (calculate_regional_composites pm mkt gd gtr cf rk).signals =
      [("polymarket", (pm rk).getD 50.0), ("markets", (mkt rk).getD 50.0),
       ("gt_panic", ((gtr rk).bind (fun d => d.1)).getD 50.0),
       ("gdelt", (gd rk).getD 50.0),
       ("gt_global", ((gtr rk).bind (fun d => d.2)).getD 50.0),
       ("cloudflare", (cf rk).getD 50.0)] := by
  refine ⟨?_, ?_, ?_, by simp [scored_signals], by simp [scored_signals], ?_, ?_⟩
  · intro h
    simp only [calculate_regional_composites, calculate_regional_composite,
      weightedSignals, totalWeight, h]
    norm_num
    rw [if_neg (List.cons_ne_nil _ _)]
    congr 1
    ring
  · intro p h
    simp only [calculate_regional_composites, calculate_regional_composite,
      weightedSignals, totalWeight, h]
    norm_num
    rw [if_neg (List.cons_ne_nil _ _)]
    congr 1
    ring
  · intro h; simp [h]
  · simp [calculate_regional_composites]
  · simp [calculate_regional_composites]

/-- Witness for C10: with the polymarket map missing the europe region, the
markets map at 60 and no gtrends payload, the europe composite is the
renormalized blend of the sentinel 50.0 and 60, and the sentinel is used
for the missing polymarket score. -/
theorem regional_sentinel_substitution_witness :
    (calculate_regional_composites (fun _ => none) (fun _ => some 60)
        (fun _ => none) (fun _ => none) (fun _ => none) Region.europe).composite =
      round1 ((0.375 * ((none : Option ℚ).getD 50.0) +
               0.375 * ((some (60 : ℚ)).getD 50.0)) / 0.75) ∧
    ((none : Option ℚ).getD 50.0 = 50.0) :=
  ⟨(regional_sentinel_substitution (fun _ => none) (fun _ => some 60)
      (fun _ => none) (fun _ => none) (fun _ => none) Region.europe).1 rfl,
   (regional_sentinel_substitution (fun _ => none) (fun _ => some 60)
      (fun _ => none) (fun _ => none) (fun _ => none) Region.europe).2.2.1 rfl⟩

lemma round3_eval (x : ℚ) (n : ℤ) (h : 1000 * x = (n : ℚ)) :
    round3 x = (n : ℚ) / 1000 := by
  rw [round3, h, round_intCast]

lemma one_le_amp_factor (s : ℚ) : 1 ≤ amp_factor s := by
  rw [amp_factor]
  split_ifs with h1 h2
  · nlinarith
  · nlinarith
  · exact le_refl 1

lemma baseWeight_pos {rcs : List (String × ℚ)} (h : rcs ≠ []) :
    0 < baseWeight rcs := by
  rw [baseWeight]
  have hl : 0 < rcs.length := List.length_pos.mpr h
  have : (0 : ℚ) < rcs.length := by exact_mod_cast hl
  exact div_pos one_pos this

lemma one_le_totalAmpWeight {rcs : List (String × ℚ)} (h : rcs ≠ []) :
    1 ≤ totalAmpWeight rcs := by
  have hb : 0 < baseWeight rcs := baseWeight_pos h
  have hle : (rcs.map (fun _ => baseWeight rcs)).sum ≤
      (rcs.map (fun p => ampWeight rcs p.2)).sum := by
    apply List.sum_le_sum
    intro p hp
    rw [ampWeight]
    nlinarith [one_le_amp_factor p.2]
  rw [sum_map_const] at hle
  have hlen : (rcs.length : ℚ) ≠ 0 := by
    have hl : 0 < rcs.length := List.length_pos.mpr h
    exact_mod_cast Nat.pos_iff_ne_zero.mp hl
  have h1 : (rcs.length : ℚ) * baseWeight rcs = 1 := by
    rw [baseWeight]; field_simp
  calc (1 : ℚ) = rcs.length * baseWeight rcs := h1.symm
    _ ≤ totalAmpWeight rcs := hle

/-- C3 counterexample: three regions with the same composite score 80 have
amplification factor 1.44 each, not 1.0 as claimed (the factor is 1.0 only
inside the neutral band), even though their cross-region aggregate still
equals the common score. -/
theorem dynamic_amp_counterexample :
    (∀ p ∈ [("europe", (80 : ℚ)), ("middle_east", 80), ("asia_pacific", 80)],
      p.2 = 80) ∧
    amp_factor 80 = 1.44 ∧
    ¬ amp_factor 80 = 1 ∧
    crossRegionAggregate
      [("europe", (80 : ℚ)), ("middle_east", 80), ("asia_pacific", 80)] = 80 := by
  have hamp : amp_factor 80 = 1.44 := by
    rw [amp_factor, if_pos (by norm_num : (58 : ℚ) < 80)]; norm_num
  refine ⟨by decide, hamp, by rw [hamp]; norm_num, ?_⟩
  simp only [crossRegionAggregate, totalAmpWeight, ampWeight, baseWeight, hamp,
    List.map_cons, List.map_nil, List.sum_cons, List.sum_nil, List.length_cons,
    List.length_nil]
  norm_num

/-- C3 (amended): `calculate_dynamic_global_score` renormalizes the
amplified weights to sum to exactly 1 for any nonempty region set; for
regions whose composite scores are all equal the amplification factors are
all equal (equal to 1.0 exactly when the common score lies in the neutral
band [42, 58]) and the cross-region aggregate equals the simple mean of the
regional composites. -/
theorem dynamic_global_weighting (rcs : List (String × ℚ)) (s : ℚ)
    (h : rcs ≠ []) :
    ((rcs.map (fun p => ampWeight rcs p.2 / totalAmpWeight rcs)).sum = 1) ∧
    ((∀ p ∈ rcs, p.2 = s) →
      (∀ p ∈ rcs, amp_factor p.2 = amp_factor s) ∧
      (42 ≤ s → s ≤ 58 → amp_factor s = 1) ∧
      crossRegionAggregate rcs = (rcs.map (fun p => p.2)).sum / rcs.length) := by
  have htw : 1 ≤ totalAmpWeight rcs := one_le_totalAmpWeight h
  have htw0 : totalAmpWeight rcs ≠ 0 := by linarith
  constructor
  · rw [sum_map_div]
    exact div_self htw0
  · intro heq
    refine ⟨fun p hp => by rw [heq p hp], ?_, ?_⟩
    · intro h42 h58
      rw [amp_factor, if_neg (by linarith : ¬ (58 : ℚ) < s),
        if_neg (by linarith : ¬ s < 42)]
    · have hmap1 : rcs.map (fun p => p.2 * (ampWeight rcs p.2 / totalAmpWeight rcs)) =
          rcs.map (fun _ => s * (ampWeight rcs s / totalAmpWeight rcs)) :=
        List.map_congr_left (fun p hp => by rw [heq p hp])
      have hmap2 : rcs.map (fun p => ampWeight rcs p.2) =
          rcs.map (fun _ => ampWeight rcs s) :=
        List.map_congr_left (fun p hp => by rw [heq p hp])
      have hmap3 : rcs.map (fun p => p.2) = rcs.map (fun _ => s) :=
        List.map_congr_left (fun p hp => heq p hp)
      have hT : totalAmpWeight rcs = rcs.length * ampWeight rcs s := by
        rw [totalAmpWeight, hmap2, sum_map_const]
      have hlen : (rcs.length : ℚ) ≠ 0 := by
        have hl : 0 < rcs.length := List.length_pos.mpr h
        exact_mod_cast Nat.pos_iff_ne_zero.mp hl
      have hamp : ampWeight rcs s ≠ 0 := by
        have hb := baseWeight_pos h
        have ha := one_le_amp_factor s
        rw [ampWeight]
        exact ne_of_gt (mul_pos hb (by linarith))
      rw [crossRegionAggregate, hmap1, sum_map_const, hmap3, sum_map_const, hT]
      field_simp
      ring

/-- Witness for C3 (amended): for three regions all at the neutral score 50,
the renormalized weights sum to 1 and the cross-region aggregate equals the
simple mean of the composites. -/
theorem dynamic_global_weighting_witness :
    (([("europe", (50 : ℚ)), ("middle_east", 50), ("asia_pacific", 50)].map
      (fun p => ampWeight
          [("europe", (50 : ℚ)), ("middle_east", 50), ("asia_pacific", 50)] p.2 /
        totalAmpWeight
          [("europe", (50 : ℚ)), ("middle_east", 50), ("asia_pacific", 50)])).sum
      = 1) ∧
    crossRegionAggregate
        [("europe", (50 : ℚ)), ("middle_east", 50), ("asia_pacific", 50)] =
      ([("europe", (50 : ℚ)), ("middle_east", 50), ("asia_pacific", 50)].map
        (fun p => p.2)).sum /
      ([("europe", (50 : ℚ)), ("middle_east", 50),
        ("asia_pacific", 50)] : List (String × ℚ)).length :=
  ⟨(dynamic_global_weighting _ 50 (by decide)).1,
   ((dynamic_global_weighting _ 50 (by decide)).2 (by decide)).2.2⟩

/-- C4 counterexample: a mature item (count 60 ≥ 50) with mean 0.10 and a
near-zero standard deviation (here exactly 0, which is ≤ 0.001) at current
value 0.14 gets the stored z-score 0.0 from the code, not the value 4.0 that
the claimed formula `(v − mean) / max(std, 0.01)` yields. -/
theorem item_z_counterexample :
    item_z (14 / 100) (1 / 10) 0 = 0 ∧
    spec_item_z (14 / 100) (1 / 10) 0 = 4 ∧
    item_z (14 / 100) (1 / 10) 0 ≠ spec_item_z (14 / 100) (1 / 10) 0 ∧
    ((scoreItems [⟨"constant-price contract", 1 / 2, 14 / 100, 100, false⟩]
        (fun _ => some ⟨1 / 10, 0, 60, true⟩)).1.map (fun m => m.z)) = [0] := by
  have h1 : item_z (14 / 100) (1 / 10) 0 = 0 := by
    rw [item_z, if_neg (by norm_num : ¬ (1 : ℚ) / 1000 < 0)]
  have h2 : spec_item_z (14 / 100) (1 / 10) 0 = 4 := by
    rw [spec_item_z, max_eq_right (by norm_num : (0 : ℚ) ≤ 1 / 100)]
    norm_num
  refine ⟨h1, h2, by rw [h1, h2]; norm_num, ?_⟩
  simp only [scoreItems, List.map_cons, List.map_nil]
  simpa using h1

/-- C4 (amended): the stored per-item z-score of a mature item is the
3-decimal rounding of `(risk_price − mean) / max(std, 0.01)` when
`std > 0.001`, and is 0.0 when `std ≤ 0.001`; in particular an item with
mean 0.10, std 0.02 and current value 0.14 gets z = 2.0 exactly. -/
theorem item_z_formula (rp mean std : ℚ) :
    (1 / 1000 < std → item_z rp mean std = round3 (spec_item_z rp mean std)) ∧
    (std ≤ 1 / 1000 → item_z rp mean std = 0) ∧
    item_z (14 / 100) (1 / 10) (2 / 100) = 2 := by
  refine ⟨?_, ?_, ?_⟩
  · intro h
    rw [item_z, if_pos h, spec_item_z, PM_STD_FLOOR]
    norm_num
  · intro h
    rw [item_z, if_neg (by linarith : ¬ 1 / 1000 < std)]
  · rw [item_z, if_pos (by norm_num : (1 : ℚ) / 1000 < 2 / 100),
      max_eq_left (by rw [PM_STD_FLOOR]; norm_num : PM_STD_FLOOR ≤ (2 : ℚ) / 100),
      round3_eval _ 2000 (by norm_num)]
    norm_num

/-- Witness for C4 (amended): at std 0.02 (> 0.001) the stored z equals the
rounded floored-divisor formula, and at std 0.0005 (≤ 0.001) it is 0. -/
theorem item_z_formula_witness :
    item_z (14 / 100) (1 / 10) (2 / 100) =
      round3 (spec_item_z (14 / 100) (1 / 10) (2 / 100)) ∧
    item_z (14 / 100) (1 / 10) (1 / 2000) = 0 :=
  ⟨(item_z_formula (14 / 100) (1 / 10) (2 / 100)).1 (by norm_num),
   (item_z_formula (14 / 100) (1 / 10) (1 / 2000)).2.1 (by norm_num)⟩

lemma scoreItems_mature_mem {contracts : List Contract}
    {bls : String → Option Baseline} {it : MatureItem}
    (h : it ∈ (scoreItems contracts bls).1) :
    bls it.contract.question = some it.baseline ∧ it.baseline.mature = true := by
  induction contracts with
  | nil => simp [scoreItems] at h
  | cons c rest ih =>
    cases hb : bls c.question with
    | none =>
      simp only [scoreItems, hb] at h
      exact ih h
    | some bl =>
      simp only [scoreItems, hb] at h
      by_cases hm : bl.mature
      · rw [if_pos hm] at h
        rcases List.mem_cons.mp h with heq | hmem
        · subst heq
          exact ⟨hb, hm⟩
        · exact ih hmem
      · rw [if_neg hm] at h
        exact ih h

lemma scoreItems_length (contracts : List Contract)
    (bls : String → Option Baseline) :
    (scoreItems contracts bls).1.length + (scoreItems contracts bls).2.length =
      contracts.length := by
  induction contracts with
  | nil => simp [scoreItems]
  | cons c rest ih =>
    cases hb : bls c.question with
    | none =>
      simp only [scoreItems, hb, List.length_cons]
      omega
    | some bl =>
      simp only [scoreItems, hb]
      by_cases hm : bl.mature
      · rw [if_pos hm]
        simp only [List.length_cons]
        omega
      · rw [if_neg hm]
        simp only [List.length_cons]
        omega

/-- C1: `fetch_contract_baselines` marks an entry mature exactly when its
observation count reaches `PM_MATURITY_THRESHOLD` (50); every item admitted
to the mature aggregate list of `calculate_polymarket_score_normalised`
carries a looked-up baseline with count ≥ 50 (so an item with count < 50
never contributes to the aggregate), and every contract lands in exactly one
of the mature list and the immature list, whose lengths partition the input. -/
theorem maturity_gating (byQuestion : List (String × List ℚ))
    (contracts : List Contract) :
    (∀ q e, fetch_contract_baselines byQuestion q = some e →
      (e.mature = true ↔ PM_MATURITY_THRESHOLD ≤ e.count)) ∧
    (∀ it ∈ (scoreItems contracts (fetch_contract_baselines byQuestion)).1,
      fetch_contract_baselines byQuestion it.contract.question = some it.baseline ∧
      PM_MATURITY_THRESHOLD ≤ it.baseline.count) ∧
    ((scoreItems contracts (fetch_contract_baselines byQuestion)).1.length +
      (scoreItems contracts (fetch_contract_baselines byQuestion)).2.length =
      contracts.length) := by
  have hmark : ∀ q e, fetch_contract_baselines byQuestion q = some e →
      (e.mature = true ↔ PM_MATURITY_THRESHOLD ≤ e.count) := by
    intro q e he
    rw [fetch_contract_baselines] at he
    rcases hf : byQuestion.find? (fun p => p.1 == q) with _ | p
    · rw [hf] at he
      simp at he
    · rw [hf] at he
      simp only [Option.map_some'] at he
      rw [← Option.some_inj.mp he]
      simp only [mkBaselineEntry]
      split_ifs with hlt
      · simp only [Bool.false_eq_true, false_iff]
        omega
      · simp only [true_iff]
        omega
  refine ⟨hmark, ?_, scoreItems_length contracts _⟩
  intro it hit
  obtain ⟨hb, hm⟩ := scoreItems_mature_mem hit
  exact ⟨hb, (hmark _ _ hb).mp hm⟩

/-- Witness for C1: a question with 60 recorded prices yields a baseline
entry whose maturity flag agrees with the count-threshold criterion. -/
theorem maturity_gating_witness :
    ((mkBaselineEntry (List.replicate 60 (1 / 10 : ℚ))).mature = true ↔
      PM_MATURITY_THRESHOLD ≤ (mkBaselineEntry (List.replicate 60 (1 / 10 : ℚ))).count) :=
  (maturity_gating [("q1", List.replicate 60 (1 / 10 : ℚ))] []).1 "q1" _ rfl

/-- C7: for a nonempty mature set the aggregate z-score is the
volume-weighted mean of the stored item z-scores, falling back to the
unweighted arithmetic mean when the total mature volume is zero, and the
returned stats carry its 3-decimal rounding with `mature_count` equal to
the number of aggregate contributors; with no mature items at all the
function returns score 50.0 with `agg_z = 0` and `mature_count = 0`. -/
theorem aggregate_z_formula (contracts : List Contract)
    (bls : String → Option Baseline) :
    ((scoreItems contracts bls).1 = [] →
      (calculate_polymarket_score_normalised contracts bls).1 = 50 ∧
      (calculate_polymarket_score_normalised contracts bls).2.agg_z = 0 ∧
      (calculate_polymarket_score_normalised contracts bls).2.mature_count = 0) ∧
    ((scoreItems contracts bls).1 ≠ [] →
      (0 < ((scoreItems contracts bls).1.map (fun m => m.contract.volume)).sum →
        aggZ (scoreItems contracts bls).1 =
          ((scoreItems contracts bls).1.map (fun m => m.z * m.contract.volume)).sum /
          ((scoreItems contracts bls).1.map (fun m => m.contract.volume)).sum) ∧
      (((scoreItems contracts bls).1.map (fun m => m.contract.volume)).sum = 0 →
        aggZ (scoreItems contracts bls).1 =
          ((scoreItems contracts bls).1.map (fun m => m.z)).sum /
          (scoreItems contracts bls).1.length) ∧
      (calculate_polymarket_score_normalised contracts bls).2.agg_z =
        round3 (aggZ (scoreItems contracts bls).1) ∧
      (calculate_polymarket_score_normalised contracts bls).2.mature_count =
        (scoreItems contracts bls).1.length) := by
  constructor
  · intro hmat
    by_cases hc : contracts = []
    · subst hc
      refine ⟨by norm_num [calculate_polymarket_score_normalised], ?_, ?_⟩ <;>
        simp [calculate_polymarket_score_normalised]
    · refine ⟨?_, ?_, ?_⟩ <;>
        simp [calculate_polymarket_score_normalised, hc, hmat] <;> norm_num
  · intro hmat
    have hc : contracts ≠ [] := by
      intro hc
      apply hmat
      rw [hc]
      simp [scoreItems]
    refine ⟨?_, ?_, ?_, ?_⟩
    · intro hv
      rw [aggZ, if_pos hv]
    · intro hv
      rw [aggZ, if_neg (by rw [hv]; exact lt_irrefl 0), listMean, List.length_map]
    · simp [calculate_polymarket_score_normalised, hc, hmat]
    · simp [calculate_polymarket_score_normalised, hc, hmat]

/-- Witness for C7: a single mature item with volume 100 makes the stats
carry the 3-decimal rounding of the aggregate z of the mature list. -/
theorem aggregate_z_formula_witness :
    (calculate_polymarket_score_normalised
        [⟨"q1", 1 / 2, 14 / 100, 100, false⟩]
        (fun _ => some ⟨1 / 10, 2 / 100, 60, true⟩)).2.agg_z =
      round3 (aggZ (scoreItems [⟨"q1", 1 / 2, 14 / 100, 100, false⟩]
        (fun _ => some ⟨1 / 10, 2 / 100, 60, true⟩)).1) :=
  ((aggregate_z_formula [⟨"q1", 1 / 2, 14 / 100, 100, false⟩]
      (fun _ => some ⟨1 / 10, 2 / 100, 60, true⟩)).2
    (by simp [scoreItems])).2.2.1

lemma roundR1_mono {x y : ℝ} (h : x ≤ y) : roundR1 x ≤ roundR1 y := by
  rw [roundR1, roundR1]
  have hr : round (10 * x) ≤ round (10 * y) := by
    rw [round_eq, round_eq]
    exact Int.floor_mono (by linarith)
  have hc : ((round (10 * x) : ℤ) : ℝ) ≤ ((round (10 * y) : ℤ) : ℝ) := by
    exact_mod_cast hr
  linarith

lemma roundR1_intval (n : ℤ) : roundR1 ((n : ℝ) / 10) = (n : ℝ) / 10 := by
  rw [roundR1]
  have h : (10 : ℝ) * ((n : ℝ) / 10) = (n : ℝ) := by
    field_simp
  rw [h, round_intCast]

lemma sigmoid_pos_lt (z : ℝ) :
    0 < 100 / (1 + Real.exp (-0.65 * z)) ∧
    100 / (1 + Real.exp (-0.65 * z)) < 100 := by
  have he : 0 < Real.exp (-0.65 * z) := Real.exp_pos _
  constructor
  · positivity
  · rw [div_lt_iff (by linarith)]
    nlinarith

/-- C5 counterexample: at z = 50 the sigmoid exceeds the clamp bound, so the
Normalizer output is exactly 99.9 — the claimed strict upper bound is
attained, not merely approached. -/
theorem normalizer_reaches_bound :
    z_to_centred_score 50 = 99.9 ∧ ¬ z_to_centred_score 50 < 99.9 := by
  have key : z_to_centred_score 50 = 99.9 := by
    rw [z_to_centred_score]
    have h0 : (-0.65 : ℝ) * 50 = -32.5 := by norm_num
    rw [h0]
    have e1 : (2 : ℝ) ≤ Real.exp 1 := by
      have := Real.exp_one_gt_d9
      linarith
    have h10 : (1024 : ℝ) ≤ Real.exp 10 := by
      have hp : Real.exp (((10 : ℕ) : ℝ) * 1) = Real.exp 1 ^ (10 : ℕ) :=
        Real.exp_nat_mul 1 10
      have h2 : Real.exp (10 : ℝ) = Real.exp 1 ^ (10 : ℕ) := by
        rw [← hp]
        norm_num
      rw [h2]
      calc (1024 : ℝ) = 2 ^ (10 : ℕ) := by norm_num
        _ ≤ Real.exp 1 ^ (10 : ℕ) := pow_le_pow_left (by norm_num) e1 10
    have hε : Real.exp (-32.5 : ℝ) ≤ 1 / 1024 := by
      have hm : Real.exp (-32.5 : ℝ) ≤ Real.exp (-10 : ℝ) :=
        Real.exp_le_exp.mpr (by norm_num)
      have hn : Real.exp (-10 : ℝ) = (Real.exp 10)⁻¹ := Real.exp_neg 10
      have hinv : (Real.exp 10)⁻¹ ≤ (1024 : ℝ)⁻¹ :=
        inv_le_inv_of_le (by norm_num) h10
      calc Real.exp (-32.5 : ℝ) ≤ (Real.exp 10)⁻¹ := hn ▸ hm
        _ ≤ (1024 : ℝ)⁻¹ := hinv
        _ = 1 / 1024 := by norm_num
    have hσ : (99.9 : ℝ) ≤ 100 / (1 + Real.exp (-32.5 : ℝ)) := by
      have hepos : 0 < Real.exp (-32.5 : ℝ) := Real.exp_pos _
      rw [le_div_iff (by linarith)]
      nlinarith
    rw [min_eq_left hσ, max_eq_right (by norm_num : (0.1 : ℝ) ≤ 99.9),
      show (99.9 : ℝ) = ((999 : ℤ) : ℝ) / 10 by norm_num, roundR1_intval]
  exact ⟨key, by rw [key]; exact lt_irrefl _⟩

/-- C5 (amended): for every real z the Normalizer output lies in the closed
interval [0.1, 99.9]; the bounds are attained for large |z| (see the
counterexample) rather than strictly avoided. -/
theorem normalizer_range (z : ℝ) :
    0.1 ≤ z_to_centred_score z ∧ z_to_centred_score z ≤ 99.9 := by
  rw [z_to_centred_score]
  have hlo : (0.1 : ℝ) ≤ max 0.1 (min 99.9 (100 / (1 + Real.exp (-0.65 * z)))) :=
    le_max_left _ _
  have hhi : max 0.1 (min 99.9 (100 / (1 + Real.exp (-0.65 * z)))) ≤ 99.9 :=
    max_le (by norm_num) (min_le_left _ _)
  have hr01 : roundR1 (0.1 : ℝ) = 0.1 := by
    rw [show (0.1 : ℝ) = ((1 : ℤ) : ℝ) / 10 by norm_num, roundR1_intval]
  have hr999 : roundR1 (99.9 : ℝ) = 99.9 := by
    rw [show (99.9 : ℝ) = ((999 : ℤ) : ℝ) / 10 by norm_num, roundR1_intval]
  constructor
  · have h1 := roundR1_mono hlo
    rw [hr01] at h1
    exact h1
  · have h1 := roundR1_mono hhi
    rw [hr999] at h1
    exact h1

/-- Witness for C5 (amended): the range bounds instantiated at z = 0. -/
theorem normalizer_range_witness :
    0.1 ≤ z_to_centred_score 0 ∧ z_to_centred_score 0 ≤ 99.9 :=
  normalizer_range 0

/-- C6: the source Normalizer coincides with the reference definition
`round(clip(100 / (1 + e^(−0.65·z)), 0.1, 99.9), 1)` at every real z, maps
0 to exactly 50.0, and is monotone nondecreasing (its 0.1-granular rounded
output cannot be strictly increasing); it is a total function of z. -/
theorem normalizer_matches_reference :
    (∀ z : ℝ, z_to_centred_score z = normalizer_spec z) ∧
    z_to_centred_score 0 = 50 ∧
    (∀ z1 z2 : ℝ, z1 ≤ z2 → z_to_centred_score z1 ≤ z_to_centred_score z2) := by
  refine ⟨?_, ?_, ?_⟩
  · intro z
    rw [z_to_centred_score, normalizer_spec, clip, min_comm]
  · rw [z_to_centred_score, show (-0.65 : ℝ) * 0 = 0 by ring, Real.exp_zero,
      show (100 : ℝ) / (1 + 1) = 50 by norm_num,
      min_eq_right (by norm_num : (50 : ℝ) ≤ 99.9),
      max_eq_right (by norm_num : (0.1 : ℝ) ≤ 50),
      show (50 : ℝ) = ((500 : ℤ) : ℝ) / 10 by norm_num, roundR1_intval]
  · intro z1 z2 h
    apply roundR1_mono
    apply max_le_max le_rfl
    apply min_le_min le_rfl
    have hE : Real.exp (-0.65 * z2) ≤ Real.exp (-0.65 * z1) :=
      Real.exp_le_exp.mpr (by linarith)
    have h2 : (0 : ℝ) < 1 + Real.exp (-0.65 * z2) := by positivity
    gcongr

/-- Witness for C6: monotonicity instantiated at 0 ≤ 1. -/
theorem normalizer_matches_reference_witness :
    z_to_centred_score 0 ≤ z_to_centred_score 1 :=
  normalizer_matches_reference.2.2 0 1 (by norm_num)

end GeoRisk
